import Mathlib

/-!
Shallow embedding of the subscription pricing optimizer, from
src/cashflow_predictive_saaS/subscriptions/engine.py (SubscriptionEngine)
and src/cashflow_predictive_saaS/subscriptions/models/pricing_model.py
(PricingModel).

Modelling conventions:
- Python float arithmetic is modelled by exact rational arithmetic (Rat).
- Python dicts are modelled by insertion-ordered association lists; a dict
  copy is the same list of entries.
- Python exceptions are modelled by Except Unit; a try/except block becomes
  a match on the Except value of the try body.
- The three collaborator models passed to SubscriptionEngine, together with
  the numpy random source and the internal-failure switch of
  PricingModel.predict_revenue, form an environment record Env.

Two statements of the source have semantics that must be modelled with
care:
- engine.py line 46 reads `self.customer_behavior_model.get
  HistoricalData(customer_id)`, which is not parseable Python (a space
  inside the attribute access). The evident intent, from the docstring,
  the surrounding lines and the external interface list, is the
  collaborator historical-data lookup; the embedding models that intent
  (field Env.get_historical_data) and the slip is recorded against the
  claim on this operation.
- engine.py line 123 interpolates `(datetime.now() -
  start_time).total_seconds:.2f` into an f-string: `total_seconds` lacks
  its call parentheses, so a bound method is formatted with a float format
  specification, which raises TypeError on every execution of the line.
  The embedding models this line as a step that always fails
  (log_elapsed below).
-/

namespace CashflowEngine

/-- Customer identifier: opaque string key of the price table. -/
abbrev CustomerId := String

/-- Mapping from customer identifier to subscription price, modelled as an
insertion-ordered association list (a Python dict). -/
abbrev PriceTable := List (CustomerId × Rat)

/-- Mapping from market-segment identifier to demand score, as returned by
the market-trend collaborator. -/
abbrev DemandTable := List (String × Rat)

/-- Historical behavioral record of one customer, as returned by the
customer-behavior collaborator. Modelled as a record of named numeric
fields; Python truthiness of the record is non-emptiness of the list. -/
abbrev HistoricalData := List (String × Rat)

/-- Market-condition data, as returned by the market-trend collaborator.
Modelled as a record of named numeric fields; Python truthiness is
non-emptiness of the list. -/
abbrev MarketConditions := List (String × Rat)

/-- Environment of one optimization call: the behavior of the three
collaborator models handed to SubscriptionEngine, the numpy random source,
and whether the try body of PricingModel.predict_revenue raises.
Collaborator calls that may raise are modelled as Except values. -/
structure Env where
  /-- customer_behavior_model historical-data lookup (engine.py line 46);
  Except.error models a raised exception, none models a falsy result
  (no data found). -/
  get_historical_data : CustomerId → Except Unit (Option HistoricalData)
  /-- customer_behavior_model.predict_churn (engine.py line 52). -/
  predict_churn : HistoricalData → Except Unit Rat
  /-- market_trend_model.get_market_conditions (engine.py line 68);
  none models an absent result. -/
  get_market_conditions : Except Unit (Option MarketConditions)
  /-- market_trend_model.predict_demand (engine.py line 74). -/
  predict_demand : MarketConditions → Except Unit DemandTable
  /-- Whether the try body of PricingModel.predict_revenue raises
  (pricing_model.py lines 173-183); its except path does a bare return,
  yielding None. -/
  revenue_fails : Bool
  /-- Value the call np.random.normal(0.0, 0.1) would produce at
  iteration i of the optimization loop (engine.py line 120). -/
  normal_draws : Nat → Rat

/-- PricingModel.predict_revenue (pricing_model.py lines 156-183).
The try body computes price * (1 - churn_probability) * market_demand *
subscription_length; subscription_length defaults to 30. The except path
is a bare return, i.e. the Python value None, modelled as Option.none;
the argument fails says whether the try body raises. -/
def predict_revenue (fails : Bool) (price churn_probability market_demand : Rat)
    (subscription_length : Rat := 30) : Option Rat :=
  if fails then none
  else some (price * (1 - churn_probability) * market_demand * subscription_length)

/-- Try body of SubscriptionEngine._predict_customer_churn (engine.py
lines 44-54): look up historical data (line 46, see the file header note
on the syntax slip there); if the result is falsy (absent or empty)
return 0.5; otherwise return the collaborator churn prediction. -/
def predict_customer_churn_run (env : Env) (customer_id : CustomerId) :
    Except Unit Rat := do
  let historical_data ← env.get_historical_data customer_id
  match historical_data with
  | none => pure ((1 : Rat) / 2)
  | some d =>
    if d.isEmpty then pure ((1 : Rat) / 2)
    else env.predict_churn d

/-- SubscriptionEngine._predict_customer_churn (engine.py lines 36-58):
the try body above with the except fallback to 0.5 (line 58). -/
def predict_customer_churn (env : Env) (customer_id : CustomerId) : Rat :=
  match predict_customer_churn_run env customer_id with
  | Except.ok p => p
  | Except.error _ => (1 : Rat) / 2

/-- Try body of SubscriptionEngine._predict_market_demand (engine.py
lines 66-76): fetch market conditions; if falsy (absent or empty) return
the empty table; otherwise return the collaborator demand prediction. -/
def predict_market_demand_run (env : Env) : Except Unit DemandTable := do
  let market_data ← env.get_market_conditions
  match market_data with
  | none => pure []
  | some md =>
    if md.isEmpty then pure []
    else env.predict_demand md

/-- SubscriptionEngine._predict_market_demand (engine.py lines 60-80):
the try body above with the except fallback to the empty table (line 80). -/
def predict_market_demand (env : Env) : DemandTable :=
  match predict_market_demand_run env with
  | Except.ok t => t
  | Except.error _ => []

/-- Churn-prediction collection step of optimize_pricing (engine.py lines
103-106): one churn probability per customer of the input table, in
input order. -/
def churn_table (env : Env) (current_prices : PriceTable) :
    List (CustomerId × Rat) :=
  current_prices.map (fun p => (p.1, predict_customer_churn env p.1))

/-- Demand score used for one customer inside the optimization loop: the
literal lookup demand_predictions.get(customer_id, 0.5) of engine.py line
117. Note it indexes the demand table with the customer identifier, not
with a market segment. -/
def resolve_demand (demand_predictions : DemandTable)
    (customer_id : CustomerId) : Rat :=
  (demand_predictions.lookup customer_id).getD ((1 : Rat) / 2)

/-- Modelled from the spec: the demand-score resolution the spec
describes, looking up the market segment of the customer in the demand
table with default 0.5. The source has no mapping from customers to
market segments, so the segment assignment segment_of is a parameter. -/
def resolve_demand_by_segment (segment_of : CustomerId → String)
    (demand_predictions : DemandTable) (customer_id : CustomerId) : Rat :=
  (demand_predictions.lookup (segment_of customer_id)).getD ((1 : Rat) / 2)

/-- Optimization loop of optimize_pricing (engine.py lines 112-121), over
the remaining items of current_prices, with i the iteration index used to
address the random source. A missing key in churn_predictions would be a
Python KeyError and a predicted revenue of None would make the comparison
None > 0 raise TypeError: both are modelled as Except.error, to be caught
by the except clause of optimize_pricing. -/
def optimize_loop (env : Env) (churn_predictions : List (CustomerId × Rat))
    (demand_predictions : DemandTable) :
    List (CustomerId × Rat) → Nat → Except Unit (List (CustomerId × Rat))
  | [], _ => Except.ok []
  | (customer_id, current_price) :: rest, i =>
    match churn_predictions.lookup customer_id with
    | none => Except.error ()
    | some churn_prob =>
      match predict_revenue env.revenue_fails current_price churn_prob
          (resolve_demand demand_predictions customer_id) with
      | none => Except.error ()
      | some predicted_revenue =>
        let new_price :=
          if predicted_revenue > 0 then
            current_price * (1 + env.normal_draws i)
          else current_price
        match optimize_loop env churn_predictions demand_predictions rest (i + 1) with
        | Except.ok tail => Except.ok ((customer_id, new_price) :: tail)
        | Except.error e => Except.error e

/-- Logging statement of engine.py line 123. The f-string interpolates
the bound method total_seconds (missing call parentheses) under the
format specification .2f, so formatting raises TypeError on every
execution: the step always fails. -/
def log_elapsed : Except Unit Unit := Except.error ()

/-- Try body of SubscriptionEngine.optimize_pricing (engine.py lines
97-124): collect churn predictions, compute the demand table once, run
the optimization loop, execute the line-123 logging statement, return the
optimized table. -/
def optimize_body (env : Env) (current_prices : PriceTable) :
    Except Unit PriceTable := do
  let churn_predictions := churn_table env current_prices
  let demand_predictions := predict_market_demand env
  let optimized_prices ← optimize_loop env churn_predictions demand_predictions
    current_prices 0
  let _ ← log_elapsed
  pure optimized_prices

/-- SubscriptionEngine.optimize_pricing (engine.py lines 82-129): the try
body above; on any exception the except clause returns
current_prices.copy(), a fresh dict with the same entries, modelled as
the input list itself. The subscription_type and window_size parameters
are part of the signature but unused by the body, as in the source. -/
def optimize_pricing (env : Env) (current_prices : PriceTable)
    (subscription_type : String := "monthly") (window_size : Int := 30) :
    PriceTable :=
  match optimize_body env current_prices with
  | Except.ok t => t
  | Except.error _ => current_prices

/-- Benign environment: historical data present, collaborator churn 0,
market conditions present, demand 1 for customer c1, revenue computation
succeeds, random draws all 0. -/
def envBase : Env :=
  { get_historical_data := fun _ => Except.ok (some [("spend", 1)])
    predict_churn := fun _ => Except.ok 0
    get_market_conditions := Except.ok (some [("gdp", 1)])
    predict_demand := fun _ => Except.ok [("c1", 1)]
    revenue_fails := false
    normal_draws := fun _ => 0 }

/-- Benign environment whose random source always draws 0.1. -/
def envDraws : Env := { envBase with normal_draws := fun _ => (1 : Rat) / 10 }

/-- Environment where the historical-data lookup finds no data. -/
def envNoData : Env :=
  { envBase with get_historical_data := fun _ => Except.ok none }

/-- Environment where the historical-data lookup raises. -/
def envLookupRaises : Env :=
  { envBase with get_historical_data := fun _ => Except.error () }

/-- Environment where the collaborator churn prediction raises. -/
def envChurnRaises : Env :=
  { envBase with predict_churn := fun _ => Except.error () }

/-- Environment where no market conditions are available. -/
def envNoMarket : Env :=
  { envBase with get_market_conditions := Except.ok none }

/-- Environment where the try body of predict_revenue raises, so the
revenue estimation yields None. -/
def envRevenueFails : Env := { envBase with revenue_fails := true }

/-- Example segment assignment: every customer belongs to the market
segment named enterprise. -/
def segment_of_example : CustomerId → String := fun _ => "enterprise"

/-- When the optimization loop completes, the produced table has exactly
the key list of the iterated items, in order. -/
theorem optimize_loop_keys (env : Env) (ct : List (CustomerId × Rat))
    (dt : DemandTable) (items : List (CustomerId × Rat)) :
    ∀ (i : Nat) (t : List (CustomerId × Rat)),
      optimize_loop env ct dt items i = Except.ok t →
      t.map Prod.fst = items.map Prod.fst := by
  induction items with
  | nil =>
    intro i t h
    simp only [optimize_loop] at h
    cases h
    simp
  | cons hd tl ih =>
    intro i t h
    obtain ⟨cid, price⟩ := hd
    simp only [optimize_loop] at h
    split at h
    · cases h
    · split at h
      · cases h
      · split at h
        · next tail heq =>
            cases h
            simpa using ih (i + 1) tail heq
        · cases h

/-- The try body of optimize_pricing always fails: the line-123 logging
statement raises TypeError on every execution. -/
theorem optimize_body_eq_error (env : Env) (prices : PriceTable) :
    optimize_body env prices = Except.error () := by
  rw [optimize_body]
  cases h : optimize_loop env (churn_table env prices) (predict_market_demand env)
      prices 0 with
  | error e => cases e; simp [Bind.bind, Except.bind, h, log_elapsed]
  | ok t => simp [Bind.bind, Except.bind, h, log_elapsed]

/-- Consequence of the line-123 failure: every call of optimize_pricing
returns its input table. -/
theorem optimize_pricing_eq_input (env : Env) (prices : PriceTable)
    (st : String) (w : Int) :
    optimize_pricing env prices st w = prices := by
  simp [optimize_pricing, optimize_body_eq_error env prices]

/-- C1: if any step inside the try body of optimize_pricing fails, the
operation discards all partial results and returns the original price
table unchanged (the except clause of engine.py lines 126-129 returns
current_prices.copy()); the embedding is a total function into
PriceTable, so no exception reaches the caller. -/
theorem optimizePricing_fallback_on_failure (env : Env)
    (current_prices : PriceTable) (st : String) (w : Int)
    (h : optimize_body env current_prices = Except.error ()) :
    optimize_pricing env current_prices st w = current_prices := by
  simp [optimize_pricing, h]

/-- Witness for C1 at a concrete input: with the benign environment and
the one-customer table, the try body fails (at the line-123 logging
statement) and the call returns the input table. -/
theorem optimizePricing_fallback_on_failure_witness :
    optimize_pricing envBase [("c1", 100)] "monthly" 30 = [("c1", 100)] :=
  optimizePricing_fallback_on_failure envBase [("c1", 100)] "monthly" 30
    (optimize_body_eq_error envBase [("c1", 100)])

/-- C2: the decision rule of the claim is computed internally (second
conjunct: with churn 0, demand 1 and draw 0.1 the loop produces the
price 100 * (1 + 0.1) = 110 for customer c1, since the predicted revenue
3000 is positive), but the caller receives the unchanged input table
(first conjunct): the logging statement of engine.py line 123 formats a
bound method with a float format specification and raises TypeError on
every call, so the except clause always returns the input copy and the
optimized table is always discarded. -/
theorem optimizePricing_line123_discards_optimized_prices :
    optimize_pricing envDraws [("c1", 100)] "monthly" 30 = [("c1", 100)] ∧
    optimize_loop envDraws (churn_table envDraws [("c1", 100)])
      (predict_market_demand envDraws) [("c1", 100)] 0
      = Except.ok [("c1", 110)] := by
  constructor
  · exact optimize_pricing_eq_input envDraws [("c1", 100)] "monthly" 30
  · simp [optimize_loop, churn_table, predict_customer_churn,
      predict_customer_churn_run, predict_market_demand,
      predict_market_demand_run, resolve_demand, predict_revenue,
      envDraws, envBase, Bind.bind, Except.bind, Pure.pure, Except.pure,
      List.lookup]
    norm_num

/-- C3: the table returned by optimize_pricing has exactly the key list
of the input table (first conjunct, covering the actual return value on
either path), and any table produced by the optimization loop likewise
keeps the key list of the items it iterates (second conjunct, the
success-path collection step). -/
theorem optimizePricing_preserves_key_set (env : Env) (prices : PriceTable)
    (st : String) (w : Int) :
    (optimize_pricing env prices st w).map Prod.fst = prices.map Prod.fst ∧
    (∀ (ct : List (CustomerId × Rat)) (dt : DemandTable)
        (items : List (CustomerId × Rat)) (i : Nat)
        (t : List (CustomerId × Rat)),
      optimize_loop env ct dt items i = Except.ok t →
      t.map Prod.fst = items.map Prod.fst) := by
  constructor
  · rw [optimize_pricing_eq_input]
  · intro ct dt items i t h
    exact optimize_loop_keys env ct dt items i t h

/-- Witness for C3 at a concrete input: a two-customer table keeps the
key list a, b through the call, and a completed loop run with draw 0.1
produces perturbed prices with that same key list. -/
theorem optimizePricing_preserves_key_set_witness :
    (optimize_pricing envDraws [("a", 5), ("b", 7)] "monthly" 30).map Prod.fst
      = [("a", (5 : Rat)), ("b", 7)].map Prod.fst ∧
    [("a", (11 : Rat) / 2), ("b", (77 : Rat) / 10)].map Prod.fst
      = [("a", (5 : Rat)), ("b", 7)].map Prod.fst := by
  constructor
  · exact (optimizePricing_preserves_key_set envDraws [("a", 5), ("b", 7)]
      "monthly" 30).1
  · exact (optimizePricing_preserves_key_set envDraws [("a", 5), ("b", 7)]
      "monthly" 30).2 [("a", 0), ("b", 0)] [] [("a", 5), ("b", 7)] 0
      [("a", (11 : Rat) / 2), ("b", (77 : Rat) / 10)]
      (by simp [optimize_loop, resolve_demand, predict_revenue, envDraws,
            envBase, List.lookup]
          norm_num)

/-- C4: fallback behavior the claim describes for the intended churn
prediction (the embedding models the evident intent of engine.py line 46,
whose literal text `get HistoricalData(customer_id)` is not parseable
Python, so the function as written cannot run at all): 0.5 when the
lookup finds no data, 0.5 when the lookup raises, 0.5 when the
collaborator churn prediction raises. -/
theorem predictChurn_intended_fallback_examples :
    predict_customer_churn envNoData "c1" = 1 / 2 ∧
    predict_customer_churn envLookupRaises "c1" = 1 / 2 ∧
    predict_customer_churn envChurnRaises "c1" = 1 / 2 := by
  refine ⟨?_, ?_, ?_⟩ <;>
    simp [predict_customer_churn, predict_customer_churn_run, envNoData,
      envLookupRaises, envChurnRaises, envBase, Bind.bind, Except.bind,
      Pure.pure, Except.pure]

/-- C5: predict_market_demand returns the empty table when market
conditions are absent or empty, returns the collaborator demand
prediction unchanged when conditions are present and the prediction
succeeds, and converts a failure of either collaborator call into the
empty table. -/
theorem predictMarketDemand_spec (env : Env) :
    (env.get_market_conditions = Except.ok none →
      predict_market_demand env = []) ∧
    (∀ md, env.get_market_conditions = Except.ok (some md) →
      md.isEmpty = true → predict_market_demand env = []) ∧
    (∀ md t, env.get_market_conditions = Except.ok (some md) →
      md.isEmpty = false → env.predict_demand md = Except.ok t →
      predict_market_demand env = t) ∧
    (env.get_market_conditions = Except.error () →
      predict_market_demand env = []) ∧
    (∀ md, env.get_market_conditions = Except.ok (some md) →
      env.predict_demand md = Except.error () →
      predict_market_demand env = []) := by
  refine ⟨?_, ?_, ?_, ?_, ?_⟩
  · intro h
    simp [predict_market_demand, predict_market_demand_run, h, Bind.bind,
      Except.bind, Pure.pure, Except.pure]
  · intro md h he
    simp [predict_market_demand, predict_market_demand_run, h, he,
      Bind.bind, Except.bind, Pure.pure, Except.pure]
  · intro md t h he hp
    simp [predict_market_demand, predict_market_demand_run, h, he, hp,
      Bind.bind, Except.bind, Pure.pure, Except.pure]
  · intro h
    simp [predict_market_demand, predict_market_demand_run, h, Bind.bind,
      Except.bind, Pure.pure, Except.pure]
  · intro md h hp
    by_cases he : md.isEmpty <;>
      simp [predict_market_demand, predict_market_demand_run, h, he, hp,
        Bind.bind, Except.bind, Pure.pure, Except.pure]

/-- Witness for C5 at concrete inputs: with absent market conditions the
result is the empty table, and with the benign environment the
collaborator prediction is returned unchanged. -/
theorem predictMarketDemand_spec_witness :
    predict_market_demand envNoMarket = [] ∧
    predict_market_demand envBase = [("c1", 1)] := by
  constructor
  · exact (predictMarketDemand_spec envNoMarket).1 rfl
  · exact (predictMarketDemand_spec envBase).2.2.1 [("gdp", 1)] [("c1", 1)]
      rfl rfl rfl

/-- C6: on the non-failing path, predict_revenue returns exactly
price * (1 - churn) * demand * length, the length argument defaults
to 30, and the two particular cases of the claim hold: zero churn and
full demand over 30 days give price * 30, and certain churn gives 0 for
any demand and length. -/
theorem predictRevenue_formula (price churn demand len : Rat) :
    predict_revenue false price churn demand len
      = some (price * (1 - churn) * demand * len) ∧
    predict_revenue false price churn demand
      = some (price * (1 - churn) * demand * 30) ∧
    predict_revenue false price 0 1 30 = some (price * 30) ∧
    (∀ d len2, predict_revenue false price 1 d len2 = some 0) := by
  refine ⟨rfl, rfl, ?_, ?_⟩
  · simp [predict_revenue]
  · intro d len2
    simp [predict_revenue]

/-- C7: the demand resolution of engine.py line 117 indexes the
segment-keyed demand table with the customer identifier: with the table
holding score 0.9 for the segment named enterprise and a customer c1 of
that segment, the code resolves 0.5 (the default, first conjunct) while
the segment lookup the claim describes resolves 0.9 (second conjunct). -/
theorem demand_lookup_keyed_by_customer_id :
    resolve_demand [("enterprise", (9 : Rat) / 10)] "c1" = 1 / 2 ∧
    resolve_demand_by_segment segment_of_example
      [("enterprise", (9 : Rat) / 10)] "c1" = 9 / 10 := by
  constructor <;>
    simp [resolve_demand, resolve_demand_by_segment, segment_of_example,
      List.lookup]

/-- C8: when the revenue estimation fails (its try body raises, so its
except path yields the Python value None), optimize_pricing returns a
table equal value-for-value to the input table. -/
theorem optimizePricing_input_on_revenue_failure (env : Env)
    (prices : PriceTable) (st : String) (w : Int)
    (h : env.revenue_fails = true) :
    optimize_pricing env prices st w = prices :=
  optimize_pricing_eq_input env prices st w

/-- Witness for C8 at a concrete input: with failing revenue estimation
the one-customer table comes back unchanged. -/
theorem optimizePricing_input_on_revenue_failure_witness :
    optimize_pricing envRevenueFails [("c1", 100)] "monthly" 30
      = [("c1", 100)] :=
  optimizePricing_input_on_revenue_failure envRevenueFails [("c1", 100)]
    "monthly" 30 rfl

/-- C9: for churn in the unit interval, demand in the unit interval,
positive length and positive price, the value predict_revenue returns on
its non-failing path is non-negative. -/
theorem predictRevenue_nonneg (price churn demand len r : Rat)
    (h0 : 0 ≤ churn) (h1 : churn ≤ 1) (h2 : 0 ≤ demand) (h3 : demand ≤ 1)
    (h4 : 0 < len) (h5 : 0 < price)
    (hr : predict_revenue false price churn demand len = some r) :
    0 ≤ r := by
  simp [predict_revenue] at hr
  have hc : (0 : Rat) ≤ 1 - churn := by linarith
  have := mul_nonneg (mul_nonneg (mul_nonneg h5.le hc) h2) h4.le
  linarith [hr ▸ this]

/-- Witness for C9 at a concrete input: price 100, churn 0.5, demand 0.5,
length 30 give the revenue 750, which is non-negative. -/
theorem predictRevenue_nonneg_witness :
    predict_revenue false 100 (1 / 2) (1 / 2) 30 = some 750 ∧
    (0 : Rat) ≤ 750 := by
  constructor
  · simp [predict_revenue]
    norm_num
  · exact predictRevenue_nonneg 100 (1 / 2) (1 / 2) 30 750 (by norm_num)
      (by norm_num) (by norm_num) (by norm_num) (by norm_num) (by norm_num)
      (by simp [predict_revenue]; norm_num)

/-- C10: the result of optimize_pricing does not depend on the
subscription_type and window_size arguments (first conjunct: two runs
with the same environment, hence the same collaborator responses and
random draws, and the same price table are equal), and the loop revenue
call leaves the subscription length at its default, which is 30 (second
conjunct). -/
theorem optimizePricing_ignores_type_and_window (env : Env)
    (prices : PriceTable) (st1 st2 : String) (w1 w2 : Int) :
    optimize_pricing env prices st1 w1 = optimize_pricing env prices st2 w2 ∧
    (∀ (fails : Bool) (p c d : Rat),
      predict_revenue fails p c d = predict_revenue fails p c d 30) :=
  ⟨rfl, fun _ _ _ _ => rfl⟩

end CashflowEngine
